import Mathlib

/-!
Verification of the terminal-profile command interpreter
(`src/src/components/Terminal.jsx`) against its natural-language
specification.

Strings of the source are modelled as lists of characters (`Str`), so
that the source's string operations (`trim`, `toLowerCase`,
`startsWith`, `slice`, `split`) become structurally recursive list
functions.  `Char.toLower` agrees with JavaScript `toLowerCase` and
`Char.isWhitespace` with JavaScript `trim` on every character these
claims exercise (all ASCII).
-/

/-- Strings of the JavaScript source, modelled as character lists. -/
abbrev Str := List Char

/-- JavaScript `toLowerCase` (ASCII). -/
def toLowerStr (s : Str) : Str := s.map Char.toLower

/-- JavaScript `String.prototype.trim`: whitespace stripped from both ends. -/
def trim (s : Str) : Str :=
  ((s.dropWhile Char.isWhitespace).reverse.dropWhile Char.isWhitespace).reverse

/-- JavaScript `String.prototype.split` with a one-character separator:
`splitOnChar c s` cuts `s` at every occurrence of `c`.  On the empty
string it returns `[[]]`, as `"".split` returns `[""]`. -/
def splitOnChar (c : Char) : Str → List Str
  | [] => [[]]
  | x :: xs =>
    let r := splitOnChar c xs
    if x = c then [] :: r
    else
      match r with
      | [] => [[x]]
      | h :: t => (x :: h) :: t

/-- External host-language primitives consumed by command handlers: the
clock reading used by `date` (`new Date().toLocaleString()`), the
random draw used by `joke` (`Math.floor(Math.random() * jokes.length)`,
reduced mod the list length so it is always in range, as the source's
draw is), and the JavaScript-engine evaluation used by `calc`
(`new Function('return ' + expression)()` followed by template-literal
stringification of the result): `evalJs e = some r` means the engine
evaluates `e` to a value that interpolates as `r`, and `none` means
evaluation throws — the exception the handler's `try`/`catch`
catches. -/
structure Env where
  now : Str
  jokeIndex : Nat
  evalJs : Str → Option Str

/-- A fixed environment used to state closed, concrete scenarios. -/
def defaultEnv : Env := { now := [], jokeIndex := 0, evalJs := fun _ => none }

/-- An environment whose evaluator behaves like the JavaScript engine on
the two expressions the `calc` scenarios exercise: `2 + 2` evaluates to
`4` and `2 +` throws a `SyntaxError`. -/
def calcEnv : Env :=
  { now := []
    jokeIndex := 0
    evalJs := fun e => if e = ("2 + 2".data) then some ("4".data) else none }

/-- A JavaScript value storable in `terminalColor`: either a string (a
hex color of the table, or the initial value) or the truthy
function/object found when a `colorMap` lookup reaches an inherited
`Object.prototype` member through the prototype chain (tagged by the
property name it was looked up under). -/
inductive JsValue where
  | str (s : Str)
  | protoMember (name : Str)
deriving DecidableEq

/-- The property names an object literal inherits from
`Object.prototype`; looking any of them up yields a truthy function or
object value, never `undefined`. -/
def protoProps : List Str :=
  [("constructor".data), ("hasOwnProperty".data), ("isPrototypeOf".data),
   ("propertyIsEnumerable".data), ("toLocaleString".data), ("toString".data),
   ("valueOf".data), ("__defineGetter__".data), ("__defineSetter__".data),
   ("__lookupGetter__".data), ("__lookupSetter__".data), ("__proto__".data)]

/-- The React component state of `Terminal.jsx`: the `useState` hooks
`history` (scrollback), `currentCommand` (line buffer), `commandHistory`
(submitted lines, newest first), `historyIndex` (history cursor),
`showMatrix` and `terminalColor`.  The window-chrome state
(`isFullscreen`, `isMinimized`) is owned by excluded collaborators and
is not touched by any claim. -/
structure TerminalState where
  history : List Str
  currentCommand : Str
  commandHistory : List Str
  historyIndex : Int
  showMatrix : Bool
  terminalColor : JsValue

/-- The initial state of the component (`useState` initialisers). -/
def initialState : TerminalState :=
  { history := [("Welcome to TechOS Terminal v1.0.0".data),
                ("Type \"help\" to see available commands.".data)]
    currentCommand := []
    commandHistory := []
    historyIndex := -1
    showMatrix := false
    terminalColor := JsValue.str ("#00ff00".data) }

/-- The static text returned by the `help` command (Terminal.jsx lines
79-89), verbatim. -/
def helpText : Str :=
  ("Available commands:\n- help: Display this help message\n- clear: Clear the terminal screen\n- echo [text]: Display the text\n- date: Show current date and time\n- matrix: Toggle Matrix-style animation\n- whoami: Display current user\n- color [green/blue/purple]: Change terminal text color\n- systeminfo: Display system information\n- joke: Tell a random programming joke\n- calc [expression]: Simple calculator (e.g., calc 2 + 2)".data)

/-- The static text returned by `systeminfo` (lines 106-111), verbatim. -/
def systeminfoText : Str :=
  ("OS: TechOS v1.0.0\nTerminal: React Terminal\nMemory: 640K (should be enough for anybody)\nCPU: Quantum Core i9\nResolution: Yes\nStatus: Optimal".data)

/-- The fixed joke list (lines 114-118), verbatim. -/
def jokes : List Str :=
  [("Why do programmers prefer dark mode? Because light attracts bugs!".data),
   ("How many programmers does it take to change a light bulb? None, that's a hardware problem!".data),
   ("Why do JavaScript developers need glasses? Because they don't see sharp!".data)]

/-- The `colorMap` object lookup (lines 127-131).  `colorMap[color]` is
a JavaScript property access: it finds the three own entries of the
literal, and otherwise continues up the prototype chain, where the
inherited `Object.prototype` member names also yield truthy values;
every other name yields `undefined` (here `none`). -/
def colorMap (color : Str) : Option JsValue :=
  if color = ("green".data) then some (JsValue.str ("#00ff00".data))
  else if color = ("blue".data) then some (JsValue.str ("#00ffff".data))
  else if color = ("purple".data) then some (JsValue.str ("#ff00ff".data))
  else if color ∈ protoProps then some (JsValue.protoMember color)
  else none

/-- The unknown-command message (line 146): template literal
`Command not found: [command]. Type 'help' for available commands.` -/
def notFound (command : Str) : Str :=
  ("Command not found: ".data) ++ command ++ (". Type 'help' for available commands.".data)

/-- The `color ` prefix rule inside the `default` case (lines 125-136):
on a truthy lookup (a table entry, or an inherited prototype member) it
sets `terminalColor` to the looked-up value and returns the
confirmation text; on `undefined` it falls through (`none`) with no
state change, continuing to the `calc ` test and the final
unknown-command return. -/
def colorStep (s : TerminalState) (command : Str) : Option (TerminalState × Str) :=
  if ("color ".data).isPrefixOf command then
    match colorMap (command.drop 6) with
    | some v =>
      some ({ s with terminalColor := v },
            ("Terminal color changed to ".data) ++ command.drop 6)
    | none => none
  else none

/-- `handleCommand` (lines 76-148).  The `switch (command.toLowerCase())`
is an equality chain on the whole lowercased line; the `default` case
tests the prefix rules `echo `, `color `, `calc ` in order on the
original (non-lowercased) line.  State writes performed by a handler
(`setHistory([])`, `setShowMatrix`, `setTerminalColor`) are returned in
the state component; the returned option is the handler's return value,
where `none` is the source's `null` (the `clear` case). -/
def handleCommand (env : Env) (s : TerminalState) (command : Str) :
    TerminalState × Option Str :=
  if toLowerStr command = ("help".data) then (s, some helpText)
  else if toLowerStr command = ("clear".data) then ({ s with history := [] }, none)
  else if toLowerStr command = ("date".data) then (s, some env.now)
  else if toLowerStr command = ("matrix".data) then
    ({ s with showMatrix := !s.showMatrix }, some ("Matrix mode toggled...".data))
  else if toLowerStr command = ("whoami".data) then (s, some ("guest@TechOS".data))
  else if toLowerStr command = ("systeminfo".data) then (s, some systeminfoText)
  else if toLowerStr command = ("joke".data) then
    (s, some (jokes.getD (env.jokeIndex % jokes.length) []))
  else if ("echo ".data).isPrefixOf command then (s, some (command.drop 5))
  else
    match colorStep s command with
    | some (s2, msg) => (s2, some msg)
    | none =>
      if ("calc ".data).isPrefixOf command then
        let expression := command.drop 5
        match env.evalJs expression with
        | some result => (s, some (expression ++ (" = ".data) ++ result))
        | none => (s, some ("Invalid expression".data))
      else (s, some (notFound command))

/-- `processOutput` (lines 71-74): `if (!output) return []` treats both
`null` and the empty string as "no output"; otherwise the text is split
into one line per `\n`-separated substring. -/
def processOutput : Option Str → List Str
  | none => []
  | some out => if out = [] then [] else splitOnChar '\n' out

/-- The `Enter` branch of `handleKeyPress` (lines 151-160).  The trimmed
line, when non-empty, is pushed onto the front of `commandHistory`, the
cursor resets to `-1`, and the handler runs.  The scrollback update
`setHistory(newLines)` is computed from the closure variable `history`,
which still holds the pre-event scrollback; because it is the last
plain-value `setHistory` call of the event, it overwrites any
`setHistory` the handler itself performed (React keeps the final queued
value).  The model therefore discards the handler's `history` write and
installs `newLines`, exactly as the component behaves.  The
`.filter(Boolean)` drops empty lines. -/
def submitLine (env : Env) (s : TerminalState) : TerminalState :=
  let command := trim s.currentCommand
  if command = [] then s
  else
    let s1 := { s with commandHistory := command :: s.commandHistory, historyIndex := -1 }
    let hr := handleCommand env s1 command
    let newLines :=
      (s.history ++ (("> ".data) ++ command) :: processOutput hr.2).filter
        (fun l => !l.isEmpty)
    { hr.1 with history := newLines, currentCommand := [] }

/-- The `ArrowUp` branch of `handleKeyPress` (lines 161-167): move the
cursor one step toward the oldest entry and mirror it into the line
buffer; no-op at the oldest entry or on empty history.  The `getD`
default is never reached when the cursor invariant holds, matching the
in-range array access of the source. -/
def arrowUp (s : TerminalState) : TerminalState :=
  if s.historyIndex < (s.commandHistory.length : Int) - 1 then
    let newIndex := s.historyIndex + 1
    { s with historyIndex := newIndex,
             currentCommand := s.commandHistory.getD newIndex.toNat [] }
  else s

/-- The `ArrowDown` branch of `handleKeyPress` (lines 168-178): move the
cursor one step toward the newest entry, or leave browsing (cursor `-1`,
empty line buffer) from position `0`; no-op at `-1`. -/
def arrowDown (s : TerminalState) : TerminalState :=
  if s.historyIndex > 0 then
    let newIndex := s.historyIndex - 1
    { s with historyIndex := newIndex,
             currentCommand := s.commandHistory.getD newIndex.toNat [] }
  else if s.historyIndex = 0 then
    { s with historyIndex := -1, currentCommand := [] }
  else s

/-- A history-navigation input: the arrow keys. -/
inductive Nav where
  | previous
  | next

/-- Dispatch one navigation input. -/
def navigate (s : TerminalState) : Nav → TerminalState
  | Nav.previous => arrowUp s
  | Nav.next => arrowDown s

/-- Run a finite sequence of navigation inputs. -/
def navigateAll (s : TerminalState) (ns : List Nav) : TerminalState :=
  ns.foldl navigate s

/-! ## Helper lemmas -/

theorem toLowerStr_cons (c : Char) (l : Str) :
    toLowerStr (c :: l) = Char.toLower c :: toLowerStr l := rfl

theorem isPrefixOf_append_self (a b : Str) : a.isPrefixOf (a ++ b) = true := by
  induction a with
  | nil => simp
  | cons x xs ih => simp [List.isPrefixOf, ih]

theorem splitOnChar_not_mem {c : Char} {l : Str} (h : c ∉ l) :
    splitOnChar c l = [l] := by
  induction l with
  | nil => rfl
  | cons x xs ih =>
    rw [List.mem_cons, not_or] at h
    obtain ⟨hx, hxs⟩ := h
    simp only [splitOnChar, ih hxs]
    rw [if_neg (Ne.symm hx)]

theorem filter_nonempty_eq_self {l : List Str} (h : ∀ x ∈ l, x ≠ []) :
    l.filter (fun x => !x.isEmpty) = l := by
  induction l with
  | nil => rfl
  | cons x xs ih =>
    have hx : (!x.isEmpty) = true := by
      cases x with
      | nil => exact absurd rfl (h [] (List.mem_cons_self [] xs))
      | cons a as => rfl
    simp [List.filter_cons, hx, ih (fun y hy => h y (List.mem_cons_of_mem x hy))]

theorem echo_dispatch (env : Env) (s : TerminalState) (X : Str) :
    handleCommand env s (("echo ".data) ++ X) = (s, some X) := by
  show handleCommand env s ('e' :: 'c' :: 'h' :: 'o' :: ' ' :: X) = (s, some X)
  simp only [handleCommand, toLowerStr_cons, colorStep]
  simp +decide [List.isPrefixOf, isPrefixOf_append_self]

theorem calc_dispatch (env : Env) (s : TerminalState) (X : Str) :
    handleCommand env s (("calc ".data) ++ X) =
      (s, some (match env.evalJs X with
                | some r => X ++ (" = ".data) ++ r
                | none => ("Invalid expression".data))) := by
  show handleCommand env s ('c' :: 'a' :: 'l' :: 'c' :: ' ' :: X) =
    (s, some (match env.evalJs X with
              | some r => X ++ (" = ".data) ++ r
              | none => ("Invalid expression".data)))
  simp only [handleCommand, toLowerStr_cons, colorStep]
  simp +decide [List.isPrefixOf]
  cases h : env.evalJs X with
  | none => simp [h]
  | some r => simp [h]

theorem submitLine_history (env : Env) (s : TerminalState) :
    (submitLine env s).history =
      if trim s.currentCommand = [] then s.history
      else
        (s.history ++
          (("> ".data) ++ trim s.currentCommand) ::
            processOutput
              (handleCommand env
                { s with commandHistory := trim s.currentCommand :: s.commandHistory,
                         historyIndex := -1 }
                (trim s.currentCommand)).2).filter (fun l => !l.isEmpty) := by
  simp only [submitLine]
  split
  · rfl
  · rfl

theorem submit_concrete (env : Env) (s : TerminalState) (cmd out : Str)
    (hh : ∀ l ∈ s.history, l ≠ [])
    (htrim : trim cmd = cmd) (hne : cmd ≠ []) (hout : out ≠ [])
    (hresp : ∀ s' : TerminalState, (handleCommand env s' cmd).2 = some out)
    (hnl : '\n' ∉ out) :
    (submitLine env { s with currentCommand := cmd }).history =
      s.history ++ [("> ".data) ++ cmd, out] := by
  have hpo : processOutput (some out) = [out] := by
    show (if out = [] then [] else splitOnChar '\n' out) = [out]
    rw [if_neg hout]
    exact splitOnChar_not_mem hnl
  have hech : (!((("> ".data) ++ cmd).isEmpty)) = true := rfl
  have hob : (!out.isEmpty) = true := by
    cases out with
    | nil => exact absurd rfl hout
    | cons a l => rfl
  have hcc : (({ s with currentCommand := cmd } : TerminalState)).currentCommand = cmd := rfl
  have hhi : (({ s with currentCommand := cmd } : TerminalState)).history = s.history := rfl
  rw [submitLine_history, hcc, hhi, htrim, if_neg hne, hresp, hpo]
  rw [List.filter_append, filter_nonempty_eq_self hh]
  simp only [List.filter_cons, hech, hob, if_pos]
  rfl

/-! ## Claims -/

/-- Claim C1 (code bug).  The spec says submitting `clear` appends
nothing and leaves the scrollback empty.  In the source, the handler's
`setHistory([])` is overwritten by the subsequent `setHistory(newLines)`
of `handleKeyPress`, whose `newLines` spreads the stale closure value of
`history`; so submitting `clear` in fact keeps the whole prior
scrollback and appends the echoed `> clear` line.  This theorem
evaluates the model at the failing input: from the initial state,
submitting `clear` yields the two welcome lines plus `> clear`, a
non-empty scrollback. -/
theorem C1_clear_scrollback_not_cleared :
    (submitLine defaultEnv { initialState with currentCommand := ("clear".data) }).history =
      [("Welcome to TechOS Terminal v1.0.0".data),
       ("Type \"help\" to see available commands.".data),
       ("> clear".data)] ∧
    (submitLine defaultEnv { initialState with currentCommand := ("clear".data) }).history ≠
      [] := by
  refine ⟨rfl, ?_⟩
  intro h
  rw [(rfl :
    (submitLine defaultEnv { initialState with currentCommand := ("clear".data) }).history =
      [("Welcome to TechOS Terminal v1.0.0".data),
       ("Type \"help\" to see available commands.".data),
       ("> clear".data)])] at h
  exact absurd h (by decide)

/-- Claim C2, counterexample.  With command history `[b, a]` and cursor
`-1`, the claim says the first Previous shows `a`; the code shows `b`
(the most recent entry, at index 0). -/
theorem C2_first_previous_shows_newest :
    (arrowUp { initialState with
                commandHistory := [("b".data), ("a".data)] }).currentCommand = ("b".data) ∧
    ("b".data) ≠ ("a".data) := ⟨rfl, by decide⟩

/-- Claim C2, amended: with command history `[b, a]` (a submitted first,
then b) and cursor at `-1`, three consecutive Previous navigations set
the line buffer to `b`, then `a`, then leave it at `a` with no further
change. -/
theorem C2_previous_previous_previous (s : TerminalState) (a b : Str) :
    (arrowUp { s with commandHistory := [b, a],
                      historyIndex := (-1 : Int) }).currentCommand = b ∧
    (arrowUp (arrowUp { s with commandHistory := [b, a],
                               historyIndex := (-1 : Int) })).currentCommand = a ∧
    arrowUp (arrowUp (arrowUp { s with commandHistory := [b, a],
                                       historyIndex := (-1 : Int) })) =
      arrowUp (arrowUp { s with commandHistory := [b, a],
                                historyIndex := (-1 : Int) }) :=
  ⟨rfl, rfl, rfl⟩

/-- Claim C3, counterexample.  The fixed help text enumerates 10
commands (one `- ` bullet line each), not 9 as the claim states. -/
theorem C3_help_enumerates_ten_commands :
    ((splitOnChar '\n' helpText).countP (fun l => ("- ".data).isPrefixOf l)) = 10 ∧
    ((splitOnChar '\n' helpText).countP (fun l => ("- ".data).isPrefixOf l)) ≠ 9 := by
  constructor
  · decide
  · decide

/-- Claim C3, amended: submitting `help` produces the fixed multi-line
registry description enumerating 10 commands, appended to the
scrollback as one entry per line of the text (11 entries: the header
plus one per command). -/
theorem C3_help_appends_line_per_line :
    (submitLine defaultEnv { initialState with currentCommand := ("help".data) }).history =
      [("Welcome to TechOS Terminal v1.0.0".data),
       ("Type \"help\" to see available commands.".data),
       ("> help".data),
       ("Available commands:".data),
       ("- help: Display this help message".data),
       ("- clear: Clear the terminal screen".data),
       ("- echo [text]: Display the text".data),
       ("- date: Show current date and time".data),
       ("- matrix: Toggle Matrix-style animation".data),
       ("- whoami: Display current user".data),
       ("- color [green/blue/purple]: Change terminal text color".data),
       ("- systeminfo: Display system information".data),
       ("- joke: Tell a random programming joke".data),
       ("- calc [expression]: Simple calculator (e.g., calc 2 + 2)".data)] ∧
    ((splitOnChar '\n' helpText).length = 11) := ⟨rfl, rfl⟩

/-- Claim C4, counterexample.  A handler result that is the empty string
appends zero lines, not one blank line (`processOutput` treats the empty
string exactly like `null`); and submitting `echo ` does not emit a
blank line: the line trims to `echo`, which matches nothing and yields
the unknown-command message. -/
theorem C4_empty_output_appends_nothing :
    processOutput (some []) = [] ∧
    (submitLine defaultEnv { initialState with currentCommand := ("echo ".data) }).history =
      [("Welcome to TechOS Terminal v1.0.0".data),
       ("Type \"help\" to see available commands.".data),
       ("> echo".data),
       ("Command not found: echo. Type 'help' for available commands.".data)] :=
  ⟨rfl, rfl⟩

/-- Claim C4, amended: a handler result of `null` appends zero output
lines, and so does the empty string (the source's falsy test treats
them identically); submitting `echo ` trims the line to `echo`, which
is not an `echo ` invocation and produces the unknown-command message
rather than a blank line. -/
theorem C4_null_and_empty_both_append_nothing :
    processOutput none = [] ∧
    processOutput (some []) = [] ∧
    trim ("echo ".data) = ("echo".data) ∧
    (handleCommand defaultEnv initialState ("echo".data)).2 =
      some (notFound ("echo".data)) :=
  ⟨rfl, rfl, rfl, rfl⟩

/-- Claim C5, counterexample.  The claim says a line whose
whitespace-delimited first token is `help` dispatches to the help
handler regardless of trailing tokens; the code matches the whole
lowercased line, so `help me` falls through to the unknown-command
message instead of the help text. -/
theorem C5_trailing_tokens_break_match :
    (handleCommand defaultEnv initialState ("help me".data)).2 =
      some (notFound ("help me".data)) ∧
    (handleCommand defaultEnv initialState ("help me".data)).2 ≠ some helpText := by
  refine ⟨rfl, ?_⟩
  intro h
  rw [(rfl : (handleCommand defaultEnv initialState ("help me".data)).2 =
        some (notFound ("help me".data)))] at h
  exact absurd h (by decide)

/-- Claim C5, amended: the interpreter matches an exact command when the
entire submitted line, compared case-insensitively, equals one of
`help`, `clear`, `date`, `matrix`, `whoami`, `systeminfo`, `joke`; a
line whose whole text lowercases to `help` dispatches to the help
handler regardless of letter case, but trailing tokens prevent the
exact match and fall through to the unknown-command message. -/
theorem C5_whole_line_case_insensitive_match :
    (∀ (env : Env) (s : TerminalState) (cmd : Str),
        toLowerStr cmd = ("help".data) →
        (handleCommand env s cmd).2 = some helpText) ∧
    (∀ (env : Env) (s : TerminalState) (cmd : Str),
        toLowerStr cmd = ("clear".data) →
        handleCommand env s cmd = ({ s with history := [] }, none)) ∧
    (∀ (env : Env) (s : TerminalState) (cmd : Str),
        toLowerStr cmd = ("date".data) →
        (handleCommand env s cmd).2 = some env.now) ∧
    (∀ (env : Env) (s : TerminalState) (cmd : Str),
        toLowerStr cmd = ("matrix".data) →
        handleCommand env s cmd =
          ({ s with showMatrix := !s.showMatrix }, some ("Matrix mode toggled...".data))) ∧
    (∀ (env : Env) (s : TerminalState) (cmd : Str),
        toLowerStr cmd = ("whoami".data) →
        (handleCommand env s cmd).2 = some ("guest@TechOS".data)) ∧
    (∀ (env : Env) (s : TerminalState) (cmd : Str),
        toLowerStr cmd = ("systeminfo".data) →
        (handleCommand env s cmd).2 = some systeminfoText) ∧
    (∀ (env : Env) (s : TerminalState) (cmd : Str),
        toLowerStr cmd = ("joke".data) →
        (handleCommand env s cmd).2 =
          some (jokes.getD (env.jokeIndex % jokes.length) [])) ∧
    (handleCommand defaultEnv initialState ("help me".data)).2 =
      some (notFound ("help me".data)) := by
  refine ⟨?_, ?_, ?_, ?_, ?_, ?_, ?_, rfl⟩ <;>
    · intro env s cmd h
      simp +decide [handleCommand, h]

/-- Claim C5, witness for the amended theorem at the concrete input
`HELP`: the whole line lowercases to `help` and dispatches to the help
handler. -/
theorem C5_whole_line_match_witness :
    (handleCommand defaultEnv initialState ("HELP".data)).2 = some helpText :=
  C5_whole_line_case_insensitive_match.1 defaultEnv initialState ("HELP".data) (by decide)

/-- Claim C6, counterexample.  For `X = "a "` (which contains no
newline) the submitted line `echo a ` is trimmed before dispatch, so the
output is `a`, not `X`. -/
theorem C6_trailing_space_is_trimmed :
    (submitLine defaultEnv { initialState with currentCommand := ("echo a ".data) }).history =
      [("Welcome to TechOS Terminal v1.0.0".data),
       ("Type \"help\" to see available commands.".data),
       ("> echo a".data),
       ("a".data)] ∧
    ("a".data) ≠ ("a ".data) := ⟨rfl, by decide⟩

/-- Claim C6, amended: for every string `X` containing no newline such
that the line `echo X` is unchanged by trimming (so `X` is non-empty
and ends in a non-whitespace character), submitting `echo X` appends
the echoed line and output exactly equal to `X`. -/
theorem C6_echo_round_trip (env : Env) (s : TerminalState) (X : Str)
    (hX : trim (("echo ".data) ++ X) = ("echo ".data) ++ X)
    (hn : '\n' ∉ X)
    (hh : ∀ l ∈ s.history, l ≠ []) :
    (submitLine env { s with currentCommand := ("echo ".data) ++ X }).history =
      s.history ++ [("> echo ".data) ++ X, X] := by
  have hXne : X ≠ [] := by
    intro h0
    rw [h0] at hX
    exact absurd hX (by decide)
  have hne : ("echo ".data) ++ X ≠ [] := by
    intro h0
    exact List.cons_ne_nil _ _ ((rfl :
      (("echo ".data) ++ X) = 'e' :: (("cho ".data) ++ X)) ▸ h0)
  have hresp : ∀ s' : TerminalState,
      (handleCommand env s' (("echo ".data) ++ X)).2 = some X :=
    fun s' => congrArg Prod.snd (echo_dispatch env s' X)
  exact submit_concrete env s (("echo ".data) ++ X) X hh hX hne hXne hresp hn

/-- Claim C6, witness for the amended theorem at `X = "a"` from the
initial state. -/
theorem C6_echo_round_trip_witness :
    (submitLine defaultEnv
        { initialState with currentCommand := ("echo ".data) ++ ("a".data) }).history =
      initialState.history ++ [("> echo ".data) ++ ("a".data), ("a".data)] :=
  C6_echo_round_trip defaultEnv initialState ("a".data) (by decide) (by decide) (by decide)

/-- Claim C7, counterexample.  The claim says any token outside the
3-entry table changes no color state and yields the generic
unknown-command message; but `colorMap[token]` is a JavaScript property
access that follows the prototype chain, so the inherited name
`constructor` is truthy: submitting `color constructor` sets the color
state to the inherited member and returns a confirmation line, not the
unknown-command message. -/
theorem C7_proto_token_sets_color :
    (handleCommand defaultEnv initialState ("color constructor".data)).1.terminalColor =
      JsValue.protoMember ("constructor".data) ∧
    (handleCommand defaultEnv initialState ("color constructor".data)).2 =
      some (("Terminal color changed to constructor".data)) ∧
    JsValue.protoMember ("constructor".data) ≠ initialState.terminalColor ∧
    some (("Terminal color changed to constructor".data)) ≠
      some (notFound ("color constructor".data)) :=
  ⟨rfl, rfl, by decide, by decide⟩

/-- Claim C7, amended: submitting `color blue` sets the current color
to the blue token; submitting `color ultraviolet` — or any token that
is neither in the 3-entry table nor a property name inherited from
`Object.prototype` — changes no color state and outputs exactly the
generic unknown-command message for the literal text, not a
color-specific error (tokens naming inherited prototype members
instead behave like table hits, per the counterexample). -/
theorem C7_color_dispatch :
    (∀ (env : Env) (s : TerminalState),
        (submitLine env { s with currentCommand := ("color blue".data) }).terminalColor =
          JsValue.str ("#00ffff".data)) ∧
    (∀ (env : Env) (s : TerminalState),
        (submitLine env { s with currentCommand := ("color ultraviolet".data) }).terminalColor =
          s.terminalColor) ∧
    (∀ (env : Env) (s : TerminalState),
        (handleCommand env s ("color ultraviolet".data)).2 =
          some (notFound ("color ultraviolet".data))) ∧
    (∀ (env : Env) (s : TerminalState) (tok : Str),
        tok ∉ [("green".data), ("blue".data), ("purple".data)] →
        tok ∉ protoProps →
        handleCommand env s (("color ".data) ++ tok) =
          (s, some (notFound (("color ".data) ++ tok)))) := by
  refine ⟨fun env s => rfl, fun env s => rfl, fun env s => rfl, ?_⟩
  intro env s tok h1 h2
  simp only [List.mem_cons, List.not_mem_nil, or_false, not_or] at h1
  obtain ⟨hg, hb, hp⟩ := h1
  show handleCommand env s ('c' :: 'o' :: 'l' :: 'o' :: 'r' :: ' ' :: tok) =
    (s, some (notFound ('c' :: 'o' :: 'l' :: 'o' :: 'r' :: ' ' :: tok)))
  simp only [handleCommand, toLowerStr_cons, colorStep, colorMap]
  simp +decide [List.isPrefixOf, hg, hb, hp, h2]

/-- Claim C7, witness for the amended theorem at the token
`ultraviolet`, which is neither a table entry nor an inherited
prototype member. -/
theorem C7_color_dispatch_witness :
    handleCommand defaultEnv initialState (("color ".data) ++ ("ultraviolet".data)) =
      (initialState, some (notFound (("color ".data) ++ ("ultraviolet".data)))) :=
  C7_color_dispatch.2.2.2 defaultEnv initialState ("ultraviolet".data)
    (by decide) (by decide)

/-- Claim C8 (confirmed).  For every state whose history cursor lies in
`[-1, N-1]` (`N` the length of the command history) and every finite
sequence of Previous/Next navigations, the cursor stays within
`[-1, N-1]`, and navigation never changes the command-history contents
— nor the scrollback, matrix flag or color — only the cursor and the
line buffer. -/
theorem C8_cursor_invariant (ns : List Nav) (s : TerminalState)
    (h1 : -1 ≤ s.historyIndex)
    (h2 : s.historyIndex ≤ (s.commandHistory.length : Int) - 1) :
    -1 ≤ (navigateAll s ns).historyIndex ∧
    (navigateAll s ns).historyIndex ≤ ((navigateAll s ns).commandHistory.length : Int) - 1 ∧
    (navigateAll s ns).commandHistory = s.commandHistory ∧
    (navigateAll s ns).history = s.history ∧
    (navigateAll s ns).showMatrix = s.showMatrix ∧
    (navigateAll s ns).terminalColor = s.terminalColor := by
  induction ns generalizing s with
  | nil => exact ⟨h1, h2, rfl, rfl, rfl, rfl⟩
  | cons n rest ih =>
    have hstep : -1 ≤ (navigate s n).historyIndex ∧
        (navigate s n).historyIndex ≤ ((navigate s n).commandHistory.length : Int) - 1 ∧
        (navigate s n).commandHistory = s.commandHistory ∧
        (navigate s n).history = s.history ∧
        (navigate s n).showMatrix = s.showMatrix ∧
        (navigate s n).terminalColor = s.terminalColor := by
      cases n with
      | previous =>
        simp only [navigate, arrowUp]
        split
        next hlt => refine ⟨?_, ?_, rfl, rfl, rfl, rfl⟩ <;> simp <;> omega
        next => exact ⟨h1, h2, rfl, rfl, rfl, rfl⟩
      | next =>
        simp only [navigate, arrowDown]
        split
        next hgt => refine ⟨?_, ?_, rfl, rfl, rfl, rfl⟩ <;> simp <;> omega
        next =>
          split
          next heq => refine ⟨?_, ?_, rfl, rfl, rfl, rfl⟩ <;> simp
          next => exact ⟨h1, h2, rfl, rfl, rfl, rfl⟩
    obtain ⟨a1, a2, a3, a4, a5, a6⟩ := hstep
    obtain ⟨b1, b2, b3, b4, b5, b6⟩ := ih (navigate s n) a1 a2
    exact ⟨b1, b2, b3.trans a3, b4.trans a4, b5.trans a5, b6.trans a6⟩

/-- Claim C8, witness: one Previous navigation from the initial state
(empty history, cursor `-1`) keeps every invariant. -/
theorem C8_cursor_invariant_witness :
    -1 ≤ (navigateAll initialState [Nav.previous]).historyIndex ∧
    (navigateAll initialState [Nav.previous]).historyIndex ≤
      (((navigateAll initialState [Nav.previous]).commandHistory.length : Int) - 1) ∧
    (navigateAll initialState [Nav.previous]).commandHistory =
      initialState.commandHistory ∧
    (navigateAll initialState [Nav.previous]).history = initialState.history ∧
    (navigateAll initialState [Nav.previous]).showMatrix = initialState.showMatrix ∧
    (navigateAll initialState [Nav.previous]).terminalColor =
      initialState.terminalColor :=
  C8_cursor_invariant [Nav.previous] initialState (by decide) (by decide)

/-- Claim C9 (confirmed).  The `calc` handler hands its argument to the
injected host evaluator (the JavaScript engine behind
`new Function('return ' + expression)()`, an external primitive like
the clock and the random source).  In every session whose evaluator
renders `2 + 2` as `4` — as the JavaScript engine does — submitting
`calc 2 + 2` outputs the single line `2 + 2 = 4`; in every session
whose evaluator throws on `2 +` — as the engine does (`SyntaxError`) —
submitting `calc 2 +` outputs `Invalid expression`; and for every
evaluator and every expression string the handler returns either a
rendered result or the fixed `Invalid expression` message — every
evaluation failure is caught inside the handler, never propagated. -/
theorem C9_calc_renders_or_reports_invalid :
    (∀ (env : Env) (s : TerminalState),
        env.evalJs ("2 + 2".data) = some ("4".data) →
        (∀ l ∈ s.history, l ≠ []) →
        (submitLine env { s with currentCommand := ("calc 2 + 2".data) }).history =
          s.history ++ [("> calc 2 + 2".data), ("2 + 2 = 4".data)]) ∧
    (∀ (env : Env) (s : TerminalState),
        env.evalJs ("2 +".data) = none →
        (∀ l ∈ s.history, l ≠ []) →
        (submitLine env { s with currentCommand := ("calc 2 +".data) }).history =
          s.history ++ [("> calc 2 +".data), ("Invalid expression".data)]) ∧
    (∀ (env : Env) (s : TerminalState) (X : Str),
        (handleCommand env s (("calc ".data) ++ X)).2 = some ("Invalid expression".data) ∨
        ∃ r : Str, (handleCommand env s (("calc ".data) ++ X)).2 =
          some (X ++ (" = ".data) ++ r)) := by
  refine ⟨?_, ?_, ?_⟩
  · intro env s hev hh
    have hresp : ∀ s' : TerminalState,
        (handleCommand env s' ("calc 2 + 2".data)).2 = some ("2 + 2 = 4".data) := by
      intro s'
      have h := calc_dispatch env s' ("2 + 2".data)
      rw [hev] at h
      exact congrArg Prod.snd h
    exact submit_concrete env s (("calc 2 + 2".data)) (("2 + 2 = 4".data)) hh
      (by decide) (by decide) (by decide) hresp (by decide)
  · intro env s hev hh
    have hresp : ∀ s' : TerminalState,
        (handleCommand env s' ("calc 2 +".data)).2 = some ("Invalid expression".data) := by
      intro s'
      have h := calc_dispatch env s' ("2 +".data)
      rw [hev] at h
      exact congrArg Prod.snd h
    exact submit_concrete env s (("calc 2 +".data)) (("Invalid expression".data)) hh
      (by decide) (by decide) (by decide) hresp (by decide)
  · intro env s X
    rw [calc_dispatch]
    cases h : env.evalJs X with
    | none => left; simp [h]
    | some r => right; exact ⟨r, by simp [h]⟩

/-- Claim C9, witness: in the environment `calcEnv`, whose evaluator
agrees with the JavaScript engine on the two scenario expressions, both
conditional scenarios hold from the initial state. -/
theorem C9_calc_witness :
    ((submitLine calcEnv { initialState with currentCommand := ("calc 2 + 2".data) }).history =
      initialState.history ++ [("> calc 2 + 2".data), ("2 + 2 = 4".data)]) ∧
    ((submitLine calcEnv { initialState with currentCommand := ("calc 2 +".data) }).history =
      initialState.history ++ [("> calc 2 +".data), ("Invalid expression".data)]) :=
  ⟨C9_calc_renders_or_reports_invalid.1 calcEnv initialState (by decide) (by decide),
   C9_calc_renders_or_reports_invalid.2.1 calcEnv initialState (by decide) (by decide)⟩

/-- Claim C10 (confirmed).  For every color token of the fixed table
(`green`, `blue`, `purple`), submitting `color ` followed by the token
appends, besides the echoed input line, exactly one output line
`Terminal color changed to ` followed by the token. -/
theorem C10_known_color_confirmation (env : Env) (s : TerminalState) (c : Str)
    (hc : c ∈ [("green".data), ("blue".data), ("purple".data)])
    (hh : ∀ l ∈ s.history, l ≠ []) :
    (submitLine env { s with currentCommand := ("color ".data) ++ c }).history =
      s.history ++ [("> color ".data) ++ c, ("Terminal color changed to ".data) ++ c] := by
  simp only [List.mem_cons, List.not_mem_nil, or_false] at hc
  rcases hc with h | h | h <;> subst h
  · exact submit_concrete env s (("color green".data))
      (("Terminal color changed to green".data)) hh (by decide) (by decide) (by decide)
      (fun s' => rfl) (by decide)
  · exact submit_concrete env s (("color blue".data))
      (("Terminal color changed to blue".data)) hh (by decide) (by decide) (by decide)
      (fun s' => rfl) (by decide)
  · exact submit_concrete env s (("color purple".data))
      (("Terminal color changed to purple".data)) hh (by decide) (by decide) (by decide)
      (fun s' => rfl) (by decide)

/-- Claim C10, witness at the token `green` from the initial state. -/
theorem C10_known_color_confirmation_witness :
    (submitLine defaultEnv
        { initialState with currentCommand := ("color ".data) ++ ("green".data) }).history =
      initialState.history ++
        [("> color ".data) ++ ("green".data),
         ("Terminal color changed to ".data) ++ ("green".data)] :=
  C10_known_color_confirmation defaultEnv initialState ("green".data) (by decide) (by decide)
